import Mathlib

/-!
Verification of the SLA & Workload Aggregation behaviour of the serviceNow
ITSM client.  The pure display logic is embedded from the React components
(`SLADashboard.js`, the `AssignmentGroups` component, `PasswordResetForm`);
the backend evaluator/aggregator, which is not part of the repository, is
modelled from the specification where a claim depends on it.
-/

/-- JavaScript `a || b` on a possibly-absent string: `undefined`/`null` and
the empty string are falsy, any other string is returned as-is. -/
def jsStrOr (a : Option String) (b : String) : String :=
  match a with
  | none => b
  | some s => if s = "" then b else s

/-- JavaScript `a || b` on a possibly-absent number: `undefined`/`null` and
`0` are falsy, any other number is returned as-is. -/
def jsNumOr (a : Option ℚ) (b : ℚ) : ℚ :=
  match a with
  | none => b
  | some x => if x = 0 then b else x

/-- JavaScript `hay.includes(needle)`: substring containment, embedded as
infix containment on the character lists. -/
def containsStr (hay needle : String) : Bool :=
  decide (needle.data <:+: hay.data)

/-- One row of the breach/warning tables of `SLADashboard.js`: the fields
the component's own logic reads.  Absent JSON fields are `none`. -/
structure SLAItem where
  ticket_number : Option String
  id : Option String
  title : Option String
  short_description : Option String
deriving DecidableEq

/-- Embeds `formatTimeRemaining` of `SLADashboard.js` (lines 149-159).
`none` stands for a `null`/`undefined` argument; `hours` and `mins` of the
source are inlined as `minutes / 60` and `minutes % 60` (floor division and
remainder of a non-negative integer, as in the source). -/
def formatTimeRemaining : Option Int → String
  | none => "N/A"
  | some minutes =>
    if minutes < 0 then "Overdue"
    else if minutes / 60 > 24 then
      toString (minutes / 60 / 24) ++ "d " ++ toString (minutes / 60 % 24) ++ "h"
    else if minutes / 60 > 0 then
      toString (minutes / 60) ++ "h " ++ toString (minutes % 60) ++ "m"
    else
      toString (minutes % 60) ++ "m"

/-- Embeds `filterData` of `SLADashboard.js` (lines 161-167): an empty
search term returns the data unchanged, otherwise rows are kept whose
ticket number (falling back to id) or title (falling back to short
description) contains the lower-cased search term. -/
def filterData (searchTerm : String) (data : List SLAItem) : List SLAItem :=
  if searchTerm = "" then data
  else data.filter fun item =>
    containsStr (jsStrOr item.ticket_number (jsStrOr item.id "")).toLower searchTerm.toLower ||
    containsStr (jsStrOr item.title (jsStrOr item.short_description "")).toLower searchTerm.toLower

/-- Embeds the Compliance Rate card of `SLADashboard.js` (line 251):
`breaches.length === 0 ? '100%' : 'N/A'`. -/
def complianceRateCard (breaches : List SLAItem) : String :=
  if breaches.length = 0 then "100%" else "N/A"

/-- The compliance-rate formula in the words of the specification:
`1 - breached/resolved` as a percentage, `none` (the `N/A` sentinel) exactly
when no resolved tickets exist.  Stated only to compare the displayed card
against it. -/
def specComplianceRate (breachedEver resolvedCount : ℕ) : Option ℚ :=
  if resolvedCount = 0 then none
  else some ((1 - (breachedEver : ℚ) / (resolvedCount : ℚ)) * 100)

/-- Embeds `getWorkloadColor` of the `AssignmentGroups` component
(`src/unnamed/part_006`, lines 115-120). -/
def getWorkloadColor (percentage : ℚ) : String :=
  if percentage ≥ 90 then "#d32f2f"
  else if percentage ≥ 70 then "#f57c00"
  else if percentage ≥ 50 then "#fbc02d"
  else "#388e3c"

/-- Embeds the agent status Chip label of the `AssignmentGroups` component
(`src/unnamed/part_006`, line 468):
`agent.status || (workloadPercent >= 90 ? 'Overloaded' : 'Available')`. -/
def agentStatusChip (status : Option String) (workloadPct : ℚ) : String :=
  jsStrOr status (if workloadPct ≥ 90 then "Overloaded" else "Available")

/-- Embeds the `workloadPercent` computation of the `AssignmentGroups`
component (`src/unnamed/part_006`, lines 422-423):
`agent.workload_percentage || (agent.assigned_tickets / (workload.max_capacity || 10)) * 100`. -/
def workloadPercent (workload_percentage : Option ℚ) (assigned_tickets : ℚ)
    (max_capacity : Option ℚ) : ℚ :=
  jsNumOr workload_percentage (assigned_tickets / jsNumOr max_capacity 10 * 100)

/-- Embeds the `sla_hours` field of the ticket payload built by
`PasswordResetForm` (`src/unnamed/part_004`, line 154):
`formData.urgency === 'high' ? 4 : formData.urgency === 'critical' ? 1 : 24`. -/
def slaHours (urgency : String) : ℕ :=
  if urgency = "high" then 4
  else if urgency = "critical" then 1
  else 24

/-- SLA status of one metric, as in the specification's data model. -/
inductive SLAStatus where
  | on_track
  | warning
  | breached
deriving DecidableEq

/-- Modelled from the spec: the Evaluator's per-metric result (section 3,
"SLA Evaluation Result"); the backend service computing it is not part of
the repository.  Times are minutes as rationals; `remaining_minutes` is
signed, negative meaning overdue. -/
structure EvalResult where
  status : SLAStatus
  remaining_minutes : ℚ
deriving DecidableEq

/-- Modelled from the spec: the read-only ticket projection (section 3)
consumed by the missing backend Evaluator/Aggregator.  Timestamps are
minutes since an arbitrary epoch; completion timestamps are `none` while
outstanding. -/
structure Ticket where
  id : ℕ
  status : String
  created_at : ℚ
  responded_at : Option ℚ
  resolved_at : Option ℚ
deriving DecidableEq

/-- Modelled from the spec: an SLA policy (section 3), restricted to the
fields the Evaluator reads. -/
structure Policy where
  response_target_minutes : ℚ
  resolution_target_minutes : ℚ
  warning_threshold_percent : ℚ
deriving DecidableEq

/-- Modelled from the spec: the Evaluator for one metric (section 4.2),
absent from the repository's sources.  With the completion timestamp still
null: `remaining = target - (now - created_at)`, `breached` if
`remaining < 0`, `warning` if `remaining ≤ target * (1 - wtp/100)`, else
`on_track`.  With the completion timestamp set the metric is historical:
completed on time is `on_track` permanently, completed late `breached`
permanently. -/
def evalMetric (created_at : ℚ) (completed_at : Option ℚ) (target wtp now : ℚ) :
    EvalResult :=
  match completed_at with
  | some c =>
    if target - (c - created_at) < 0 then ⟨.breached, target - (c - created_at)⟩
    else ⟨.on_track, target - (c - created_at)⟩
  | none =>
    if target - (now - created_at) < 0 then ⟨.breached, target - (now - created_at)⟩
    else if target - (now - created_at) ≤ target * (1 - wtp / 100) then
      ⟨.warning, target - (now - created_at)⟩
    else ⟨.on_track, target - (now - created_at)⟩

/-- Modelled from the spec: the response metric of `evaluate` (section 4.2). -/
def evalResponse (t : Ticket) (p : Policy) (now : ℚ) : EvalResult :=
  evalMetric t.created_at t.responded_at p.response_target_minutes
    p.warning_threshold_percent now

/-- Modelled from the spec: the resolution metric of `evaluate` (section 4.2). -/
def evalResolution (t : Ticket) (p : Policy) (now : ℚ) : EvalResult :=
  evalMetric t.created_at t.resolved_at p.resolution_target_minutes
    p.warning_threshold_percent now

/-- Modelled from the spec: the Aggregator scans open tickets only, those
not resolved/closed/cancelled (section 4.3). -/
def isOpenTicket (t : Ticket) : Bool :=
  !(t.status = "resolved" || t.status = "closed" || t.status = "cancelled")

/-- Modelled from the spec: a ticket is breached when either metric is
breached (section 4.3). -/
def ticketBreached (p : Policy) (now : ℚ) (t : Ticket) : Bool :=
  (evalResponse t p now).status == .breached ||
  (evalResolution t p now).status == .breached

/-- Modelled from the spec: a ticket is a warning when either metric is a
warning and neither is breached — breached takes precedence (section 4.3). -/
def ticketWarning (p : Policy) (now : ℚ) (t : Ticket) : Bool :=
  ((evalResponse t p now).status == .warning ||
   (evalResolution t p now).status == .warning) &&
  !(ticketBreached p now t)

/-- Modelled from the spec: the remaining minutes attached to a list entry,
the more urgent of the two metrics. -/
def entryRemaining (p : Policy) (now : ℚ) (t : Ticket) : ℚ :=
  min (evalResponse t p now).remaining_minutes (evalResolution t p now).remaining_minutes

/-- Modelled from the spec: the Aggregator's list order (section 4.3),
ascending remaining minutes with ties broken by ticket id ascending, as a
boolean comparator for sorting. -/
def entryLE (p : Policy) (now : ℚ) (a b : Ticket) : Bool :=
  decide (entryRemaining p now a < entryRemaining p now b) ||
  (decide (entryRemaining p now a = entryRemaining p now b) && decide (a.id ≤ b.id))

/-- The Aggregator's list order as a relation: strictly earlier remaining
minutes, or equal remaining minutes and ticket id no larger. -/
def slaOrder (p : Policy) (now : ℚ) (a b : Ticket) : Prop :=
  entryRemaining p now a < entryRemaining p now b ∨
  (entryRemaining p now a = entryRemaining p now b ∧ a.id ≤ b.id)

/-- Modelled from the spec: the `breaches` list of `scan` (section 4.3) —
open tickets with a breached metric, sorted by the Aggregator's order. -/
def scanBreaches (tickets : List Ticket) (p : Policy) (now : ℚ) : List Ticket :=
  ((tickets.filter isOpenTicket).filter (ticketBreached p now)).mergeSort (entryLE p now)

/-- Modelled from the spec: the `warnings` list of `scan` (section 4.3) —
open tickets with a warning metric and no breached metric, sorted by the
Aggregator's order. -/
def scanWarnings (tickets : List Ticket) (p : Policy) (now : ℚ) : List Ticket :=
  ((tickets.filter isOpenTicket).filter (ticketWarning p now)).mergeSort (entryLE p now)

theorem append_h_ne_NA (a : String) : a ++ "h" ≠ "N/A" := by
  intro h
  have h2 : a.data ++ ['h'] = ['N', '/', 'A'] := congrArg String.data h
  have h3 := congrArg List.getLast? h2
  rw [List.getLast?_concat] at h3
  simp at h3

theorem append_m_ne_NA (a : String) : a ++ "m" ≠ "N/A" := by
  intro h
  have h2 : a.data ++ ['m'] = ['N', '/', 'A'] := congrArg String.data h
  have h3 := congrArg List.getLast? h2
  rw [List.getLast?_concat] at h3
  simp at h3

theorem formatTimeRemaining_some_ne_NA (m : Int) :
    formatTimeRemaining (some m) ≠ "N/A" := by
  simp only [formatTimeRemaining]
  split_ifs with h1 h2 h3
  · decide
  · exact append_h_ne_NA _
  · exact append_m_ne_NA _
  · exact append_m_ne_NA _

/-- C10: formatTimeRemaining is total: it returns "N/A" exactly for a
null/undefined argument, the constant "Overdue" for every negative number
(the overdue magnitude is never shown), and for every minutes value with
1440 ≤ minutes < 1500 (hours exactly 24) it renders the hours form
"24h Xm" rather than the days form, since the days branch requires hours
strictly greater than 24. -/
theorem formatTimeRemaining_spec :
    (∀ o : Option Int, formatTimeRemaining o = "N/A" ↔ o = none) ∧
    (∀ m : Int, m < 0 → formatTimeRemaining (some m) = "Overdue") ∧
    (∀ m : Int, 1440 ≤ m → m < 1500 →
      formatTimeRemaining (some m) = "24h " ++ toString (m - 1440) ++ "m") := by
  refine ⟨?_, ?_, ?_⟩
  · intro o
    cases o with
    | none => simp [formatTimeRemaining]
    | some m => simp [formatTimeRemaining_some_ne_NA m]
  · intro m h
    simp only [formatTimeRemaining]
    rw [if_pos h]
  · intro m h1 h2
    have e1 : m / 60 = 24 := by omega
    have e2 : m % 60 = m - 1440 := by omega
    simp only [formatTimeRemaining]
    rw [if_neg (by omega), e1, if_neg (by omega), if_pos (by omega), e2]
    congr 2

/-- Witness for C10 at concrete inputs. -/
theorem formatTimeRemaining_spec_witness :
    formatTimeRemaining (some (-5)) = "Overdue" ∧
    formatTimeRemaining (some 1470) = "24h " ++ toString ((1470 : Int) - 1440) ++ "m" ∧
    formatTimeRemaining none = "N/A" :=
  ⟨formatTimeRemaining_spec.2.1 (-5) (by decide),
   formatTimeRemaining_spec.2.2 1470 (by decide) (by decide),
   (formatTimeRemaining_spec.1 none).mpr rfl⟩

/-- C9: the created password-reset ticket's sla_hours field is 4 for
urgency "high", 1 for urgency "critical", and 24 for every other urgency
value. -/
theorem slaHours_spec :
    slaHours "high" = 4 ∧ slaHours "critical" = 1 ∧
    ∀ u : String, u ≠ "high" → u ≠ "critical" → slaHours u = 24 := by
  refine ⟨rfl, rfl, ?_⟩
  intro u h1 h2
  simp [slaHours, h1, h2]

/-- Witness for C9 at concrete inputs. -/
theorem slaHours_spec_witness :
    slaHours "high" = 4 ∧ slaHours "critical" = 1 ∧ slaHours "medium" = 24 :=
  ⟨slaHours_spec.1, slaHours_spec.2.1, slaHours_spec.2.2 "medium" (by decide) (by decide)⟩

/-- C8: the breach/warning view computation is pure: an empty search term
returns the input list itself, and the filtered view is always a sublist of
the input drawn in order from it — the input snapshot is never changed. -/
theorem filterData_pure :
    (∀ d : List SLAItem, filterData "" d = d) ∧
    (∀ (t : String) (d : List SLAItem), (filterData t d).Sublist d) := by
  constructor
  · intro d
    simp [filterData]
  · intro t d
    by_cases h : t = ""
    · subst h; simp [filterData]
    · simp only [filterData, if_neg h]
      exact List.filter_sublist d

/-- Witness for C8 at concrete inputs. -/
theorem filterData_pure_witness :
    filterData "" [⟨some "T1", none, none, none⟩] = [⟨some "T1", none, none, none⟩] ∧
    (filterData "x" [⟨some "T1", none, none, none⟩]).Sublist [⟨some "T1", none, none, none⟩] :=
  ⟨filterData_pure.1 _, filterData_pure.2 "x" _⟩

/-- C1 counterexample: with one currently-breached ticket fetched and one
resolved ticket of which one ever breached, the card shows "N/A" although
the spec's formula is defined (resolved count is nonzero) — the displayed
value is not the spec's compliance rate and "N/A" does not coincide with
"no resolved tickets". -/
theorem complianceRate_claim_cex :
    ¬ (complianceRateCard [⟨some "T1", none, some "vpn down", none⟩] = "N/A"
        ↔ specComplianceRate 1 1 = none) := by
  intro h
  have h2 := h.mp rfl
  simp [specComplianceRate] at h2

/-- C1 (amended): the Compliance Rate card shows "100%" exactly when the
fetched breaches list is empty and "N/A" otherwise; it never computes the
historical ratio and does not depend on resolved-ticket counts. -/
theorem complianceRateCard_amended :
    ∀ b : List SLAItem,
      (complianceRateCard b = "100%" ↔ b = []) ∧
      (complianceRateCard b = "N/A" ↔ b ≠ []) := by
  intro b
  cases b with
  | nil => refine ⟨by simp [complianceRateCard], by simp [complianceRateCard]⟩
  | cons x xs =>
    refine ⟨?_, ?_⟩
    · simp only [complianceRateCard]
      rw [if_neg (by simp)]
      constructor
      · intro h; exact absurd h (by decide)
      · intro h; exact absurd h (by simp)
    · simp only [complianceRateCard]
      rw [if_neg (by simp)]
      simp

/-- Witness for the amended C1 at concrete inputs. -/
theorem complianceRateCard_amended_witness :
    complianceRateCard [⟨some "T2", none, none, none⟩] = "N/A" ∧
    complianceRateCard [] = "100%" :=
  ⟨(complianceRateCard_amended [⟨some "T2", none, none, none⟩]).2.mpr (by simp),
   (complianceRateCard_amended []).1.mpr rfl⟩

/-- C2 counterexample: at workload percentage exactly 50 with no
backend-supplied status, the Chip reports "Available", not the claimed
'busy' bucket — the component has no busy status at all. -/
theorem agentStatus_claim_cex :
    agentStatusChip none 50 = "Available" ∧ agentStatusChip none 50 ≠ "busy" ∧
    agentStatusChip none 50 ≠ "Busy" := by
  have h : agentStatusChip none 50 = "Available" := by
    norm_num [agentStatusChip, jsStrOr]
  exact ⟨h, by rw [h]; decide, by rw [h]; decide⟩

/-- C2 (amended): when the backend supplies no status, the Chip reports
"Overloaded" exactly when the workload percentage is at least 90 and
"Available" below 90 — there is no busy bucket; only the colour scale has a
50 boundary, and both the 50 and 90 boundaries fall into the higher colour
bucket. -/
theorem agentStatus_amended :
    (∀ p : ℚ, 90 ≤ p → agentStatusChip none p = "Overloaded") ∧
    (∀ p : ℚ, p < 90 → agentStatusChip none p = "Available") ∧
    getWorkloadColor 90 = "#d32f2f" ∧ getWorkloadColor 50 = "#fbc02d" := by
  refine ⟨?_, ?_, ?_, ?_⟩
  · intro p h
    simp only [agentStatusChip, jsStrOr]
    rw [if_pos h]
  · intro p h
    simp only [agentStatusChip, jsStrOr]
    rw [if_neg (not_le.mpr h)]
  · norm_num [getWorkloadColor]
  · norm_num [getWorkloadColor]

/-- Witness for the amended C2 at concrete inputs. -/
theorem agentStatus_amended_witness :
    agentStatusChip none 95 = "Overloaded" ∧ agentStatusChip none 40 = "Available" :=
  ⟨agentStatus_amended.1 95 (by norm_num), agentStatus_amended.2.1 40 (by norm_num)⟩

/-- C3 counterexample: for an agent with 5 assigned tickets in a group with
no configured max capacity (absent, or present as 0), the workload
computation does not report any misconfiguration: it silently substitutes
the default capacity 10 and yields 50. -/
theorem capacity_claim_cex :
    workloadPercent none 5 none = 50 ∧ workloadPercent none 5 (some 0) = 50 := by
  constructor <;> norm_num [workloadPercent, jsNumOr]

/-- C3 (amended): when group max capacity is unconfigured (absent or 0),
the workload calculation proceeds with the default capacity 10; no error is
surfaced and no division by zero occurs. -/
theorem capacity_fallback_amended :
    ∀ a : ℚ, workloadPercent none a none = a / 10 * 100 ∧
      workloadPercent none a (some 0) = a / 10 * 100 := by
  intro a
  constructor <;> simp [workloadPercent, jsNumOr]

/-- Witness for the amended C3 at a concrete input. -/
theorem capacity_fallback_amended_witness :
    workloadPercent none 20 none = 20 / 10 * 100 :=
  (capacity_fallback_amended 20).1

/-- C7: with no backend-precomputed percentage and a configured nonzero
capacity, the workload percentage is assigned / capacity * 100; it is
monotone in the assigned count for a fixed positive capacity; and with
capacity 10 an agent with 9 assigned tickets is at exactly 90 and reported
Overloaded. -/
theorem workloadPercent_spec :
    (∀ a c : ℚ, c ≠ 0 → workloadPercent none a (some c) = a / c * 100) ∧
    (∀ a b c : ℚ, 0 < c → a ≤ b →
      workloadPercent none a (some c) ≤ workloadPercent none b (some c)) ∧
    workloadPercent none 9 (some 10) = 90 ∧
    agentStatusChip none (workloadPercent none 9 (some 10)) = "Overloaded" := by
  have key : ∀ a c : ℚ, c ≠ 0 → workloadPercent none a (some c) = a / c * 100 := by
    intro a c hc
    simp [workloadPercent, jsNumOr, hc]
  have e9 : workloadPercent none 9 (some 10) = 90 := by
    rw [key 9 10 (by norm_num)]; norm_num
  refine ⟨key, ?_, e9, ?_⟩
  · intro a b c hc hab
    rw [key a c (ne_of_gt hc), key b c (ne_of_gt hc)]
    have h1 : a / c ≤ b / c := (div_le_div_iff_of_pos_right hc).mpr hab
    exact mul_le_mul_of_nonneg_right h1 (by norm_num)
  · rw [e9]
    norm_num [agentStatusChip, jsStrOr]

/-- Witness for C7 at concrete inputs. -/
theorem workloadPercent_spec_witness :
    workloadPercent none 3 (some 4) = 3 / 4 * 100 ∧
    workloadPercent none 2 (some 4) ≤ workloadPercent none 3 (some 4) :=
  ⟨workloadPercent_spec.1 3 4 (by norm_num),
   workloadPercent_spec.2.1 2 3 4 (by norm_num) (by norm_num)⟩

/-- C6: a ticket past its resolution due time (created_at plus resolution
target before now) with resolved_at null evaluates to breached with
strictly negative remaining minutes. -/
theorem evalResolution_overdue_breached :
    ∀ (t : Ticket) (p : Policy) (now : ℚ), t.resolved_at = none →
      t.created_at + p.resolution_target_minutes < now →
      (evalResolution t p now).status = SLAStatus.breached ∧
      (evalResolution t p now).remaining_minutes < 0 := by
  intro t p now hres hdue
  have hneg : p.resolution_target_minutes - (now - t.created_at) < 0 := by linarith
  simp only [evalResolution, evalMetric, hres]
  rw [if_pos hneg]
  exact ⟨rfl, hneg⟩

/-- Witness for C6, Scenario B: created 70 minutes before now with a
60-minute resolution target and unresolved, the metric is breached with
remaining minutes exactly -10. -/
theorem evalResolution_overdue_breached_witness :
    (evalResolution ⟨1, "open", 0, none, none⟩ ⟨30, 60, 75⟩ 70).status = SLAStatus.breached ∧
    (evalResolution ⟨1, "open", 0, none, none⟩ ⟨30, 60, 75⟩ 70).remaining_minutes = -10 :=
  ⟨(evalResolution_overdue_breached ⟨1, "open", 0, none, none⟩ ⟨30, 60, 75⟩ 70 rfl
      (by norm_num)).1,
   by norm_num [evalResolution, evalMetric]⟩

theorem entryLE_trans (p : Policy) (now : ℚ) :
    ∀ a b c : Ticket, entryLE p now a b = true → entryLE p now b c = true →
      entryLE p now a c = true := by
  intro a b c hab hbc
  simp only [entryLE, Bool.or_eq_true, Bool.and_eq_true, decide_eq_true_eq] at hab hbc ⊢
  rcases hab with h1 | ⟨h1, h2⟩ <;> rcases hbc with h3 | ⟨h3, h4⟩
  · exact Or.inl (lt_trans h1 h3)
  · exact Or.inl (by rw [← h3]; exact h1)
  · exact Or.inl (by rw [h1]; exact h3)
  · exact Or.inr ⟨h1.trans h3, le_trans h2 h4⟩

theorem entryLE_total (p : Policy) (now : ℚ) :
    ∀ a b : Ticket, (entryLE p now a b || entryLE p now b a) = true := by
  intro a b
  simp only [entryLE, Bool.or_eq_true, Bool.and_eq_true, decide_eq_true_eq]
  rcases lt_trichotomy (entryRemaining p now a) (entryRemaining p now b) with h | h | h
  · exact Or.inl (Or.inl h)
  · rcases Nat.le_total a.id b.id with hid | hid
    · exact Or.inl (Or.inr ⟨h, hid⟩)
    · exact Or.inr (Or.inr ⟨h.symm, hid⟩)
  · exact Or.inr (Or.inl h)

theorem entryLE_eq_true_iff (p : Policy) (now : ℚ) (a b : Ticket) :
    entryLE p now a b = true ↔ slaOrder p now a b := by
  simp [entryLE, slaOrder]

/-- C4: no ticket appears in both the breaches list and the warnings list
of one aggregation — a ticket with a breached metric is listed only under
breaches, and warnings require that no metric is breached. -/
theorem scan_disjoint :
    ∀ (tickets : List Ticket) (p : Policy) (now : ℚ) (t : Ticket),
      t ∈ scanBreaches tickets p now → t ∉ scanWarnings tickets p now := by
  intro tickets p now t hb hw
  simp only [scanBreaches] at hb
  simp only [scanWarnings] at hw
  have hb2 : ticketBreached p now t = true :=
    (List.mem_filter.mp (((List.mergeSort_perm _ _).mem_iff).mp hb)).2
  have hw2 : ticketWarning p now t = true :=
    (List.mem_filter.mp (((List.mergeSort_perm _ _).mem_iff).mp hw)).2
  simp [ticketWarning, hb2] at hw2

/-- Witness for C4: a ticket far past both targets lands in the breaches
list and is then absent from the warnings list. -/
theorem scan_disjoint_witness :
    (⟨1, "open", 0, none, none⟩ : Ticket) ∉
      scanWarnings [⟨1, "open", 0, none, none⟩] ⟨30, 60, 75⟩ 100 :=
  scan_disjoint [⟨1, "open", 0, none, none⟩] ⟨30, 60, 75⟩ 100 _
    (by
      simp only [scanBreaches]
      rw [(List.mergeSort_perm _ _).mem_iff, List.mem_filter, List.mem_filter]
      refine ⟨⟨List.mem_singleton_self _, by decide⟩, ?_⟩
      have : (evalResponse ⟨1, "open", 0, none, none⟩ ⟨30, 60, 75⟩ 100).status =
          SLAStatus.breached := by
        norm_num [evalResponse, evalMetric]
      simp [ticketBreached, this])

/-- C5: the breaches list and the warnings list of one aggregation are each
sorted by ascending remaining minutes with ties broken by ticket id
ascending, so the output order is deterministic. -/
theorem scan_sorted :
    ∀ (tickets : List Ticket) (p : Policy) (now : ℚ),
      (scanBreaches tickets p now).Sorted (slaOrder p now) ∧
      (scanWarnings tickets p now).Sorted (slaOrder p now) := by
  intro tickets p now
  constructor <;>
    exact List.Pairwise.imp (fun h => (entryLE_eq_true_iff p now _ _).mp h)
      (List.sorted_mergeSort (entryLE_trans p now) (entryLE_total p now) _)

/-- Witness for C5 at a concrete input. -/
theorem scan_sorted_witness :
    (scanBreaches [⟨2, "open", 0, none, none⟩, ⟨1, "open", 5, none, none⟩]
        ⟨30, 60, 75⟩ 100).Sorted (slaOrder ⟨30, 60, 75⟩ 100) ∧
    (scanWarnings [⟨2, "open", 0, none, none⟩] ⟨30, 60, 75⟩ 100).Sorted
      (slaOrder ⟨30, 60, 75⟩ 100) :=
  ⟨(scan_sorted _ _ _).1, (scan_sorted _ _ _).2⟩
